import Mathlib

/-!
Formalisation of the response/error normalisation layer of a small web backend.

The embedded code is:
* `backend/app/utils/responses.py` — the standardized JSON envelope builders
  `success_response`, `error_response` and `paginated_response`;
* `backend/app/utils/exceptions.py` — the exception taxonomy rooted at
  `BaseAPIException`;
* `backend/app/middleware/error_middleware.py` — the exception handlers that
  convert failures into envelopes.

JSON bodies are modelled by the inductive type `Json`; a Python dict is an
insertion-ordered association list with unique keys, so an envelope is a
`Json.obj` over a list of key/value pairs, and presence of a key is
`Json.getKey?` returning `some`.  Python `None` arguments are modelled by
`Option`, and Python default parameter values by `Option.getD` at the use
site.  Machine integers are `Int` (Python integers are unbounded), and the
Python floor division `//` is `Int.fdiv`.
-/

/-- JSON values, the payload type of every response body. -/
inductive Json where
  | null
  | bool (b : Bool)
  | int (n : Int)
  | str (s : String)
  | arr (elems : List Json)
  | obj (fields : List (String × Json))

/-- Dictionary access on a JSON value: the value stored under key `k` of an
object (the first matching entry; the builders below only ever produce
objects with distinct keys), `none` on non-objects and missing keys. -/
def Json.getKey? : Json → String → Option Json
  | .obj fields, k => (fields.find? (fun pr => pr.1 == k)).map Prod.snd
  | _, _ => none

/-- A `JSONResponse`: the transport-level status code together with the JSON
body that is serialized onto the wire. -/
structure Response where
  status_code : Int
  content : Json

/-- `success_response` from `responses.py`: builds the dict
`["success": True, "message": message, "status_code": status_code]` and adds
a `"data"` entry at the end exactly when `data is not None`, then returns it
with the same transport status code. -/
def success_response (data : Option Json) (message : String) (status_code : Int) : Response :=
  let response_data := [("success", Json.bool true), ("message", Json.str message),
    ("status_code", Json.int status_code)]
  let response_data :=
    match data with
    | some d => response_data ++ [("data", d)]
    | none => response_data
  { status_code := status_code, content := Json.obj response_data }

/-- `error_response` from `responses.py`: builds the dict
`["success": False, "message": message, "status_code": status_code]` and adds
an `"errors"` entry at the end exactly when the optional field-error dict is
supplied and truthy (i.e. non-empty), then returns it with the same
transport status code. -/
def error_response (message : String) (status_code : Int)
    (errors : Option (List (String × String))) : Response :=
  let response_data := [("success", Json.bool false), ("message", Json.str message),
    ("status_code", Json.int status_code)]
  let response_data :=
    match errors with
    | some errs =>
        if errs.isEmpty then response_data
        else response_data ++ [("errors", Json.obj (errs.map (fun pr => (pr.1, Json.str pr.2))))]
    | none => response_data
  { status_code := status_code, content := Json.obj response_data }

/-- `paginated_response` from `responses.py`: computes
`total_pages = (total + page_size - 1) // page_size` (Python floor division,
so `Int.fdiv`) and returns a success envelope with transport and body status
fixed at 200 and a nested `"pagination"` object. -/
def paginated_response (data : List Json) (total page page_size : Int) (message : String) :
    Response :=
  let total_pages := (total + page_size - 1).fdiv page_size
  { status_code := 200,
    content := Json.obj [("success", Json.bool true), ("message", Json.str message),
      ("status_code", Json.int 200), ("data", Json.arr data),
      ("pagination", Json.obj [("total", Json.int total), ("page", Json.int page),
        ("page_size", Json.int page_size), ("total_pages", Json.int total_pages),
        ("has_next", Json.bool (decide (page < total_pages))),
        ("has_previous", Json.bool (decide (page > 1)))])] }

/-- For a positive divisor, the Python expression
`(total + page_size - 1) // page_size` computes the ceiling of the exact
rational quotient `total / page_size`. -/
lemma fdiv_add_pred_eq_ceil (total page_size : Int) (hp : 1 ≤ page_size) :
    (total + page_size - 1).fdiv page_size = ⌈(total : ℚ) / (page_size : ℚ)⌉ := by
  have hb0 : (0 : Int) < page_size := hp
  have hbq : (0 : ℚ) < (page_size : ℚ) := by exact_mod_cast hb0
  rw [Int.fdiv_eq_ediv _ (le_of_lt hb0)]
  symm
  rw [Int.ceil_eq_iff]
  have hmod := Int.ediv_add_emod (total + page_size - 1) page_size
  have hlt := Int.emod_lt_of_pos (total + page_size - 1) hb0
  have hge := Int.emod_nonneg (total + page_size - 1) (ne_of_gt hb0)
  have h1 : ((total + page_size - 1) / page_size - 1) * page_size < total := by nlinarith
  have h2 : total ≤ (total + page_size - 1) / page_size * page_size := by nlinarith
  constructor
  · rw [lt_div_iff₀ hbq]
    exact_mod_cast h1
  · rw [div_le_iff₀ hbq]
    exact_mod_cast h2

/-- Claim C1: for every `total ≥ 0`, every `page`, and every `page_size ≥ 1`,
the envelope returned by `paginated_response` carries a pagination block with
`total_pages` equal to the ceiling of `total / page_size`, `has_next` equal
to `page < total_pages` and `has_previous` equal to `page > 1`; in
particular `(total, page, page_size) = (25, 2, 10)` yields
`total_pages = 3, has_next = true, has_previous = true`, and `(0, 1, 10)`
yields `total_pages = 0, has_next = false, has_previous = false`. -/
theorem paginated_response_pagination_block :
    (∀ (d : List Json) (m : String) (total page page_size : Int),
      0 ≤ total → 1 ≤ page_size →
      (paginated_response d total page page_size m).content.getKey? "pagination" =
        some (Json.obj [("total", Json.int total), ("page", Json.int page),
          ("page_size", Json.int page_size),
          ("total_pages", Json.int ⌈(total : ℚ) / (page_size : ℚ)⌉),
          ("has_next", Json.bool (decide (page < ⌈(total : ℚ) / (page_size : ℚ)⌉))),
          ("has_previous", Json.bool (decide (page > 1)))]))
    ∧ (paginated_response [] 25 2 10 "Success").content.getKey? "pagination" =
        some (Json.obj [("total", Json.int 25), ("page", Json.int 2),
          ("page_size", Json.int 10), ("total_pages", Json.int 3),
          ("has_next", Json.bool true), ("has_previous", Json.bool true)])
    ∧ (paginated_response [] 0 1 10 "Success").content.getKey? "pagination" =
        some (Json.obj [("total", Json.int 0), ("page", Json.int 1),
          ("page_size", Json.int 10), ("total_pages", Json.int 0),
          ("has_next", Json.bool false), ("has_previous", Json.bool false)]) := by
  refine ⟨?_, rfl, rfl⟩
  intro d m total page page_size ht hp
  have h := fdiv_add_pred_eq_ceil total page_size hp
  simp [paginated_response, Json.getKey?, h]

/-- Claim C1, witness: the universally quantified part of
`paginated_response_pagination_block` instantiated at
`total = 25, page = 2, page_size = 10`, whose hypotheses hold. -/
theorem paginated_response_pagination_block_witness :
    (paginated_response [] 25 2 10 "Success").content.getKey? "pagination" =
      some (Json.obj [("total", Json.int 25), ("page", Json.int 2),
        ("page_size", Json.int 10),
        ("total_pages", Json.int ⌈(25 : ℚ) / (10 : ℚ)⌉),
        ("has_next", Json.bool (decide ((2 : Int) < ⌈(25 : ℚ) / (10 : ℚ)⌉))),
        ("has_previous", Json.bool (decide ((2 : Int) > 1)))]) :=
  paginated_response_pagination_block.1 [] "Success" 25 2 10 (by decide) (by decide)

/-- Claim C2: no envelope built by `success_response`, `error_response` or
`paginated_response` ever carries both a `data` and an `errors` key:
`success_response` and `paginated_response` produce `success = true` and no
`errors` key, and `error_response` produces `success = false` and no `data`
key. -/
theorem envelope_data_errors_exclusive :
    (∀ (d : Option Json) (m : String) (c : Int),
      (success_response d m c).content.getKey? "errors" = none ∧
      (success_response d m c).content.getKey? "success" = some (Json.bool true))
    ∧ (∀ (m : String) (c : Int) (errors : Option (List (String × String))),
      (error_response m c errors).content.getKey? "data" = none ∧
      (error_response m c errors).content.getKey? "success" = some (Json.bool false))
    ∧ (∀ (d : List Json) (total page page_size : Int) (m : String),
      (paginated_response d total page page_size m).content.getKey? "errors" = none ∧
      (paginated_response d total page page_size m).content.getKey? "success" =
        some (Json.bool true)) := by
  refine ⟨fun d m c => ?_, fun m c errors => ?_, fun d total page page_size m => ?_⟩
  · cases d <;> exact ⟨rfl, rfl⟩
  · match errors with
    | none => exact ⟨rfl, rfl⟩
    | some errs =>
        cases errs with
        | nil => exact ⟨rfl, rfl⟩
        | cons p t =>
            constructor
            · show (Json.obj (_ ++ [("errors", _)])).getKey? "data" = none
              simp [Json.getKey?, List.find?_append]
            · rfl
  · exact ⟨rfl, rfl⟩

/-- Claim C6: the `status_code` field inside the JSON body of every envelope
built by `success_response`, `error_response` or `paginated_response` equals
the transport-level status code of the returned response. -/
theorem envelope_status_matches_transport :
    (∀ (d : Option Json) (m : String) (c : Int),
      (success_response d m c).content.getKey? "status_code" =
        some (Json.int (success_response d m c).status_code))
    ∧ (∀ (m : String) (c : Int) (errors : Option (List (String × String))),
      (error_response m c errors).content.getKey? "status_code" =
        some (Json.int (error_response m c errors).status_code))
    ∧ (∀ (d : List Json) (total page page_size : Int) (m : String),
      (paginated_response d total page page_size m).content.getKey? "status_code" =
        some (Json.int (paginated_response d total page page_size m).status_code)) := by
  refine ⟨fun d m c => ?_, fun m c errors => ?_, fun d total page page_size m => rfl⟩
  · cases d <;> rfl
  · match errors with
    | none => rfl
    | some errs => cases errs <;> rfl

/-- Claim C7: every envelope built by `success_response` has `success = true`
and always carries the `message` and `status_code` keys; its `data` key
holds exactly the supplied payload when one is present and is absent when
the payload is absent. -/
theorem success_response_envelope (d : Option Json) (m : String) (c : Int) :
    (success_response d m c).content.getKey? "success" = some (Json.bool true) ∧
    (success_response d m c).content.getKey? "message" = some (Json.str m) ∧
    (success_response d m c).content.getKey? "status_code" = some (Json.int c) ∧
    (success_response d m c).content.getKey? "data" = d := by
  cases d <;> exact ⟨rfl, rfl, rfl, rfl⟩

/-- Claim C10: `paginated_response` always produces `success = true` with
status 200 both in the body and at the transport level, whatever its
arguments are; no argument can select another status. -/
theorem paginated_response_always_200 (d : List Json) (total page page_size : Int)
    (m : String) :
    (paginated_response d total page page_size m).status_code = 200 ∧
    (paginated_response d total page page_size m).content.getKey? "status_code" =
      some (Json.int 200) ∧
    (paginated_response d total page page_size m).content.getKey? "success" =
      some (Json.bool true) :=
  ⟨rfl, rfl, rfl⟩

/-!
The validation handler of `error_middleware.py`.

A `RequestValidationError` exposes a list of error records; each record has a
location path `loc` (a tuple of strings and integers) and a message `msg`.
The handler folds the records into a Python dict keyed by the dotted join of
the stringified path segments that differ from the string `"body"`, with
plain dict assignment (so a later record overwrites an earlier one on the
same key), and passes the dict to `error_response` with the fixed message
and status 422.  A Python dict is modelled as an insertion-ordered
association list with unique keys: `dictInsert` is dict assignment and
`dictGet?` is dict lookup.
-/

/-- One segment of the `loc` path of a validation error record: Python
reports strings (field names) and integers (sequence indices). -/
inductive Loc where
  | str (s : String)
  | int (n : Int)

/-- Python `str(loc)` on a path segment. -/
def Loc.toStr : Loc → String
  | .str s => s
  | .int n => toString n

/-- The filter `loc != "body"` from the handler: an integer segment never
equals the string `"body"`. -/
def Loc.keep : Loc → Bool
  | .str s => !(s == "body")
  | .int _ => true

/-- One record of `exc.errors()`: the location path and the message. -/
structure ValidationErrorItem where
  loc : List Loc
  msg : String

/-- The key expression of the handler:
`".".join(str(loc) for loc in error["loc"] if loc != "body")`. -/
def fieldKey (locs : List Loc) : String :=
  String.intercalate "." ((locs.filter Loc.keep).map Loc.toStr)

/-- Python dict assignment `d[k] = v`: overwrite in place when the key is
already present, append otherwise. -/
def dictInsert (d : List (String × String)) (k v : String) : List (String × String) :=
  if d.any (fun pr => pr.1 == k) then d.map (fun pr => if pr.1 == k then (k, v) else pr)
  else d ++ [(k, v)]

/-- Python dict lookup `d.get(k)`. -/
def dictGet? (d : List (String × String)) (k : String) : Option String :=
  (d.find? (fun pr => pr.1 == k)).map Prod.snd

/-- The `errors` dict built by the loop of `validation_exception_handler`. -/
def validationErrors (errs : List ValidationErrorItem) : List (String × String) :=
  errs.foldl (fun d e => dictInsert d (fieldKey e.loc) e.msg) []

/-- `validation_exception_handler` from `error_middleware.py`: the request is
opaque to the handler and is modelled as an uninterpreted string. -/
def validation_exception_handler (request : String) (exc : List ValidationErrorItem) :
    Response :=
  error_response "Validation error" 422 (some (validationErrors exc))

/-- Modelled from the spec for comparison with `fieldKey`: the keying rule as
the spec words it, the dotted join of the location path with the body-root
segment (a leading `"body"` segment, and only that one) stripped. -/
def specFieldKey (locs : List Loc) : String :=
  String.intercalate "."
    ((match locs with
      | Loc.str "body" :: rest => rest
      | l => l).map Loc.toStr)

/-- The tie-break rule as the spec words it: the message of the last record
in iteration order whose field path maps to the key `k`, if any. -/
def lastMsg (errs : List ValidationErrorItem) (k : String) : Option String :=
  errs.foldl (fun acc e => if fieldKey e.loc = k then some e.msg else acc) none

/-- The field-error entry stored under key `k` of the `errors` object of an
envelope, when both exist. -/
def envelopeFieldError (r : Response) (k : String) : Option Json :=
  (r.content.getKey? "errors").bind (fun j => j.getKey? k)

lemma dictGet?_map_update_self (d : List (String × String)) (k v : String)
    (h : d.any (fun pr => pr.1 == k) = true) :
    dictGet? (d.map (fun pr => if pr.1 == k then (k, v) else pr)) k = some v := by
  induction d with
  | nil => simp at h
  | cons p t ih =>
      cases hp : p.1 == k with
      | true => simp [dictGet?, List.find?, hp]
      | false =>
          simp only [List.any_cons, hp, Bool.false_or] at h
          simp only [List.map_cons, hp, Bool.false_eq_true, if_false]
          simp only [dictGet?, List.find?, hp] at ih ⊢
          exact ih h

lemma dictGet?_map_update_ne (d : List (String × String)) (k v k' : String)
    (h : k' ≠ k) :
    dictGet? (d.map (fun pr => if pr.1 == k then (k, v) else pr)) k' = dictGet? d k' := by
  have hkk : (k == k') = false := by
    apply beq_eq_false_iff_ne.mpr
    exact fun hh => h hh.symm
  induction d with
  | nil => rfl
  | cons p t ih =>
      cases hp : p.1 == k with
      | true =>
          have hpk : p.1 = k := by simpa using hp
          have h2 : (p.1 == k') = false := by rw [hpk]; exact hkk
          simp only [List.map_cons, hp, if_true]
          simp only [dictGet?, List.find?, hkk, h2] at ih ⊢
          exact ih
      | false =>
          simp only [List.map_cons, hp, Bool.false_eq_true, if_false]
          cases hq : p.1 == k' with
          | true => simp [dictGet?, List.find?, hq]
          | false =>
              simp only [dictGet?, List.find?, hq] at ih ⊢
              exact ih

lemma dictGet?_dictInsert (d : List (String × String)) (k v k' : String) :
    dictGet? (dictInsert d k v) k' = if k' = k then some v else dictGet? d k' := by
  unfold dictInsert
  by_cases hc : (d.any fun pr => pr.1 == k) = true
  · rw [if_pos hc]
    by_cases hk : k' = k
    · subst hk
      rw [if_pos rfl]
      exact dictGet?_map_update_self d k' v hc
    · rw [if_neg hk]
      exact dictGet?_map_update_ne d k v k' hk
  · rw [if_neg hc]
    unfold dictGet?
    rw [List.find?_append]
    by_cases hk : k' = k
    · subst hk
      have hfd : d.find? (fun pr => pr.1 == k') = none := by
        rw [List.find?_eq_none]
        intro x hx hxk
        exact hc (List.any_eq_true.mpr ⟨x, hx, hxk⟩)
      simp [hfd, List.find?]
    · have h1 : (k == k') = false := by
        apply beq_eq_false_iff_ne.mpr
        exact fun hh => hk hh.symm
      rw [if_neg hk]
      have hfs : List.find? (fun pr => pr.1 == k') [(k, v)] = none := by
        simp [List.find?, h1]
      rw [hfs, Option.or_none]

lemma dictGet?_validationErrors_aux (errs : List ValidationErrorItem) :
    ∀ (d : List (String × String)) (k : String),
      dictGet? (errs.foldl (fun d e => dictInsert d (fieldKey e.loc) e.msg) d) k =
        errs.foldl (fun acc e => if fieldKey e.loc = k then some e.msg else acc)
          (dictGet? d k) := by
  induction errs with
  | nil => intro d k; rfl
  | cons e rest ih =>
      intro d k
      simp only [List.foldl_cons]
      rw [ih]
      congr 1
      rw [dictGet?_dictInsert]
      by_cases h : fieldKey e.loc = k
      · rw [if_pos h, if_pos h.symm]
      · rw [if_neg h, if_neg (fun hh => h hh.symm)]

lemma dictGet?_validationErrors (errs : List ValidationErrorItem) (k : String) :
    dictGet? (validationErrors errs) k = lastMsg errs k := by
  unfold validationErrors lastMsg
  rw [dictGet?_validationErrors_aux]
  rfl

lemma dictInsert_ne_nil (d : List (String × String)) (k v : String) :
    dictInsert d k v ≠ [] := by
  unfold dictInsert
  split
  · rename_i hc
    intro hmap
    rw [List.map_eq_nil_iff] at hmap
    subst hmap
    simp at hc
  · intro happ
    simp at happ

lemma foldl_dictInsert_ne_nil (errs : List ValidationErrorItem) :
    ∀ d : List (String × String), d ≠ [] →
      errs.foldl (fun d e => dictInsert d (fieldKey e.loc) e.msg) d ≠ [] := by
  induction errs with
  | nil => intro d hd; exact hd
  | cons e rest ih =>
      intro d hd
      simp only [List.foldl_cons]
      exact ih _ (dictInsert_ne_nil d _ _)

lemma validationErrors_eq_nil_iff (errs : List ValidationErrorItem) :
    validationErrors errs = [] ↔ errs = [] := by
  constructor
  · intro h
    cases errs with
    | nil => rfl
    | cons e rest =>
        exfalso
        apply foldl_dictInsert_ne_nil rest (dictInsert [] (fieldKey e.loc) e.msg)
          (dictInsert_ne_nil [] _ _)
        simpa [validationErrors] using h
  · intro h
    subst h
    rfl

lemma handler_errors_key (request : String) (errs : List ValidationErrorItem) :
    (validation_exception_handler request errs).content.getKey? "errors" =
      if errs.isEmpty then none
      else some (Json.obj ((validationErrors errs).map (fun pr => (pr.1, Json.str pr.2)))) := by
  unfold validation_exception_handler error_response
  cases herrs : errs with
  | nil => rfl
  | cons e rest =>
      have hne : validationErrors (e :: rest) ≠ [] := by
        rw [ne_eq, validationErrors_eq_nil_iff]
        simp
      have hempty : (validationErrors (e :: rest)).isEmpty = false := by
        rw [List.isEmpty_eq_false_iff_exists_mem]
        cases hv : validationErrors (e :: rest) with
        | nil => exact absurd hv hne
        | cons p t => exact ⟨p, by simp⟩
      simp only [hempty, Bool.false_eq_true, if_false, List.isEmpty_cons]
      simp [Json.getKey?, List.find?_append, List.find?]

lemma getKey?_obj_mapStr (l : List (String × String)) (k : String) :
    (Json.obj (l.map (fun pr => (pr.1, Json.str pr.2)))).getKey? k =
      (dictGet? l k).map (fun s => Json.str s) := by
  simp only [Json.getKey?, dictGet?, List.find?_map]
  have hco : ((fun pr : String × Json => pr.1 == k) ∘
      (fun pr : String × String => (pr.1, Json.str pr.2)))
      = fun pr : String × String => pr.1 == k := rfl
  rw [hco]
  cases l.find? (fun pr => pr.1 == k) <;> rfl

lemma envelopeFieldError_handler (request : String) (exc : List ValidationErrorItem)
    (k : String) :
    envelopeFieldError (validation_exception_handler request exc) k =
      (lastMsg exc k).map (fun s => Json.str s) := by
  unfold envelopeFieldError
  rw [handler_errors_key]
  cases hx : exc with
  | nil => rfl
  | cons e rest =>
      simp only [List.isEmpty_cons, Bool.false_eq_true, if_false, Option.some_bind]
      rw [getKey?_obj_mapStr, dictGet?_validationErrors]

lemma lastMsg_foldl_isSome_iff (k : String) (errs : List ValidationErrorItem) :
    ∀ init : Option String,
      (errs.foldl (fun acc e => if fieldKey e.loc = k then some e.msg else acc) init).isSome
        ↔ (∃ e ∈ errs, fieldKey e.loc = k) ∨ init.isSome := by
  induction errs with
  | nil => intro init; simp
  | cons e rest ih =>
      intro init
      simp only [List.foldl_cons]
      by_cases h : fieldKey e.loc = k
      · rw [if_pos h, ih]
        constructor
        · intro _
          exact Or.inl ⟨e, List.mem_cons_self e rest, h⟩
        · intro _
          exact Or.inr rfl
      · rw [if_neg h, ih]
        constructor
        · rintro (⟨e', he', hk⟩ | hi)
          · exact Or.inl ⟨e', List.mem_cons_of_mem _ he', hk⟩
          · exact Or.inr hi
        · rintro (⟨e', he', hk⟩ | hi)
          · rcases List.mem_cons.mp he' with rfl | he''
            · exact absurd hk h
            · exact Or.inl ⟨e', he'', hk⟩
          · exact Or.inr hi

lemma keys_dictInsert (d : List (String × String)) (k v : String) :
    (dictInsert d k v).map Prod.fst =
      if d.any (fun pr => pr.1 == k) then d.map Prod.fst else d.map Prod.fst ++ [k] := by
  unfold dictInsert
  split
  · rw [List.map_map]
    apply List.map_congr_left
    intro pr _
    simp only [Function.comp_apply]
    by_cases hp : (pr.1 == k) = true
    · rw [if_pos hp]
      have hpk : pr.1 = k := by simpa using hp
      simp [hpk]
    · rw [if_neg hp]
  · simp

lemma nodup_keys_dictInsert (d : List (String × String)) (k v : String)
    (h : (d.map Prod.fst).Nodup) : ((dictInsert d k v).map Prod.fst).Nodup := by
  rw [keys_dictInsert]
  by_cases hc : (d.any fun pr => pr.1 == k) = true
  · rw [if_pos hc]
    exact h
  · rw [if_neg hc]
    rw [List.nodup_append]
    refine ⟨h, List.nodup_singleton k, ?_⟩
    intro a ha hb
    have hak : a = k := by simpa using hb
    subst hak
    rcases List.mem_map.mp ha with ⟨pr, hpr, hfst⟩
    exact hc (List.any_eq_true.mpr ⟨pr, hpr, by simp [hfst]⟩)

lemma nodup_keys_validationErrors (errs : List ValidationErrorItem) :
    ((validationErrors errs).map Prod.fst).Nodup := by
  have aux : ∀ (es : List ValidationErrorItem) (d : List (String × String)),
      (d.map Prod.fst).Nodup →
      ((es.foldl (fun d e => dictInsert d (fieldKey e.loc) e.msg) d).map Prod.fst).Nodup := by
    intro es
    induction es with
    | nil => intro d hd; exact hd
    | cons e rest ih =>
        intro d hd
        simp only [List.foldl_cons]
        exact ih _ (nodup_keys_dictInsert d _ _ hd)
  exact aux errs [] (by simp)

/-- Claim C3 (amended): for every structured input-validation failure the
handler returns status 422 at the transport level and in the body, the fixed
message "Validation error" and `success = false`; the errors mapping has an
entry exactly for each key that is the dotted join of the location path of
some record with every segment equal to "body" stripped (not only a leading
body-root segment), its keys are pairwise distinct, and on the example
failure for the fields `name` and `price` it contains exactly those two
keys with their messages. -/
theorem validation_exception_handler_envelope :
    (∀ (request : String) (exc : List ValidationErrorItem),
      (validation_exception_handler request exc).status_code = 422 ∧
      (validation_exception_handler request exc).content.getKey? "success" =
        some (Json.bool false) ∧
      (validation_exception_handler request exc).content.getKey? "message" =
        some (Json.str "Validation error") ∧
      (validation_exception_handler request exc).content.getKey? "status_code" =
        some (Json.int 422))
    ∧ (∀ (request : String) (exc : List ValidationErrorItem) (k : String),
      (envelopeFieldError (validation_exception_handler request exc) k).isSome
        ↔ ∃ e ∈ exc, fieldKey e.loc = k)
    ∧ (∀ exc : List ValidationErrorItem, ((validationErrors exc).map Prod.fst).Nodup)
    ∧ (validation_exception_handler "request"
        [⟨[Loc.str "body", Loc.str "name"], "required"⟩,
         ⟨[Loc.str "body", Loc.str "price"], "must be positive"⟩]).content.getKey? "errors" =
        some (Json.obj [("name", Json.str "required"),
          ("price", Json.str "must be positive")]) := by
  refine ⟨?_, ?_, nodup_keys_validationErrors, rfl⟩
  · intro request exc
    unfold validation_exception_handler error_response
    cases hv : (validationErrors exc).isEmpty <;>
      simp [hv, Json.getKey?, List.find?_append, List.find?]
  · intro request exc k
    rw [envelopeFieldError_handler, Option.isSome_map']
    have h := lastMsg_foldl_isSome_iff k exc none
    unfold lastMsg
    rw [h]
    simp

/-- Claim C3, counterexample to the claim as stated: on a record whose
location path is `("body", "a", "body")` the handler keys the entry by
`"a"`, stripping the trailing `"body"` segment as well, whereas the dotted
join with only the body-root segment stripped is `"a.body"`, a key that is
absent from the errors mapping. -/
theorem validation_handler_key_counterexample :
    fieldKey [Loc.str "body", Loc.str "a", Loc.str "body"] = "a" ∧
    specFieldKey [Loc.str "body", Loc.str "a", Loc.str "body"] = "a.body" ∧
    (validation_exception_handler "request"
      [⟨[Loc.str "body", Loc.str "a", Loc.str "body"], "m"⟩]).content.getKey? "errors" =
      some (Json.obj [("a", Json.str "m")]) ∧
    envelopeFieldError (validation_exception_handler "request"
      [⟨[Loc.str "body", Loc.str "a", Loc.str "body"], "m"⟩]) "a.body" = none :=
  ⟨rfl, rfl, rfl, rfl⟩

/-- Claim C4: when several records report errors for the same field path,
the errors mapping of the envelope retains only the message of the last one
in iteration order: the entry under any key equals the last message
encountered for that key, and on a failure reporting "required" and then
"too short" for the field `name` the mapping holds exactly
`name ↦ too short`. -/
theorem validation_errors_last_write_wins :
    (∀ (request : String) (exc : List ValidationErrorItem) (k : String),
      envelopeFieldError (validation_exception_handler request exc) k =
        (lastMsg exc k).map (fun s => Json.str s))
    ∧ (validation_exception_handler "request"
        [⟨[Loc.str "body", Loc.str "name"], "required"⟩,
         ⟨[Loc.str "body", Loc.str "name"], "too short"⟩]).content.getKey? "errors" =
        some (Json.obj [("name", Json.str "too short")]) :=
  ⟨envelopeFieldError_handler, rfl⟩

/-!
The exception taxonomy of `exceptions.py`.  `BaseAPIException` carries the
data that `HTTPException.__init__` stores: a status code, a detail string
and optional headers.  Each category is a constructor function whose Python
default parameter values are modelled by `Option.getD`; truthiness of a
string (`if resource_id:`) is falsity of both `None` and the empty string.
-/

/-- The data of a `BaseAPIException` (as stored by `HTTPException`). -/
structure BaseAPIException where
  status_code : Int
  detail : String
  headers : Option (List (String × String))

/-- `NotFoundException(resource="Resource", resource_id=None)`: detail is
`f"{resource} not found"`, refined to `f"{resource} with id '{resource_id}'
not found"` when `resource_id` is truthy. -/
def NotFoundException (resource : Option String) (resource_id : Option String) :
    BaseAPIException :=
  let res := resource.getD "Resource"
  let detail :=
    match resource_id with
    | some rid =>
        if rid.isEmpty then res ++ " not found"
        else res ++ " with id \x27" ++ rid ++ "\x27 not found"
    | none => res ++ " not found"
  { status_code := 404, detail := detail, headers := none }

/-- `ValidationException(detail="Validation error")`. -/
def ValidationException (detail : Option String) : BaseAPIException :=
  { status_code := 422, detail := detail.getD "Validation error", headers := none }

/-- `AuthenticationException(detail="Authentication failed")`, which also
sets the challenge header `WWW-Authenticate: Bearer`. -/
def AuthenticationException (detail : Option String) : BaseAPIException :=
  { status_code := 401, detail := detail.getD "Authentication failed",
    headers := some [("WWW-Authenticate", "Bearer")] }

/-- `AuthorizationException(detail="Insufficient permissions")`. -/
def AuthorizationException (detail : Option String) : BaseAPIException :=
  { status_code := 403, detail := detail.getD "Insufficient permissions", headers := none }

/-- `DatabaseException(detail="Database operation failed")`. -/
def DatabaseException (detail : Option String) : BaseAPIException :=
  { status_code := 500, detail := detail.getD "Database operation failed", headers := none }

/-- `ConflictException(detail="Resource conflict")`. -/
def ConflictException (detail : Option String) : BaseAPIException :=
  { status_code := 409, detail := detail.getD "Resource conflict", headers := none }

/-- `base_api_exception_handler` from `error_middleware.py`: echoes the
detail and status code of the exception into an `error_response` envelope
with no field errors. -/
def base_api_exception_handler (request : String) (exc : BaseAPIException) : Response :=
  error_response exc.detail exc.status_code none

/-- `global_exception_handler` from `error_middleware.py`: ignores the
exception entirely (both parameters are opaque to it and are modelled as
uninterpreted strings) and produces the fixed internal-error envelope. -/
def global_exception_handler (request : String) (exc : String) : Response :=
  error_response "Internal server error" 500 none

/-- Claim C5: each exception category carries its fixed status code and its
default detail — not-found 404 (with resource `Item` and id `42` the detail
reads: Item with id (in quotes) 42 not found), validation 422,
authentication 401 together with the challenge header
`WWW-Authenticate: Bearer`, authorization 403, conflict 409,
database/internal 500 — and the handler echoes detail and status code of
every exception into the envelope body and the transport status. -/
theorem exception_taxonomy_and_handler :
    (∀ resource resource_id, (NotFoundException resource resource_id).status_code = 404)
    ∧ (NotFoundException (some "Item") (some "42")).detail =
        "Item with id \x2742\x27 not found"
    ∧ (NotFoundException none none).detail = "Resource not found"
    ∧ (∀ d, (ValidationException d).status_code = 422)
    ∧ (ValidationException none).detail = "Validation error"
    ∧ (∀ d, (AuthenticationException d).status_code = 401)
    ∧ (∀ d, (AuthenticationException d).headers = some [("WWW-Authenticate", "Bearer")])
    ∧ (AuthenticationException none).detail = "Authentication failed"
    ∧ (∀ d, (AuthorizationException d).status_code = 403)
    ∧ (AuthorizationException none).detail = "Insufficient permissions"
    ∧ (∀ d, (ConflictException d).status_code = 409)
    ∧ (ConflictException none).detail = "Resource conflict"
    ∧ (∀ d, (DatabaseException d).status_code = 500)
    ∧ (DatabaseException none).detail = "Database operation failed"
    ∧ (∀ (request : String) (exc : BaseAPIException),
        (base_api_exception_handler request exc).status_code = exc.status_code ∧
        (base_api_exception_handler request exc).content.getKey? "message" =
          some (Json.str exc.detail) ∧
        (base_api_exception_handler request exc).content.getKey? "status_code" =
          some (Json.int exc.status_code)) :=
  ⟨fun _ _ => rfl, rfl, rfl, fun _ => rfl, rfl, fun _ => rfl, fun _ => rfl, rfl,
   fun _ => rfl, rfl, fun _ => rfl, rfl, fun _ => rfl, rfl,
   fun _ _ => ⟨rfl, rfl, rfl⟩⟩

/-- Claim C8: `error_response` yields `success = false`; with the field-error
mapping omitted or empty the body holds exactly the keys `success`,
`message` and `status_code`, and with a non-empty mapping supplied the body
additionally carries the mapping under the `errors` key. -/
theorem error_response_envelope (m : String) (c : Int) :
    (error_response m c none).content =
      Json.obj [("success", Json.bool false), ("message", Json.str m),
        ("status_code", Json.int c)] ∧
    (error_response m c (some [])).content =
      Json.obj [("success", Json.bool false), ("message", Json.str m),
        ("status_code", Json.int c)] ∧
    ∀ errs : List (String × String), errs ≠ [] →
      (error_response m c (some errs)).content.getKey? "errors" =
        some (Json.obj (errs.map (fun pr => (pr.1, Json.str pr.2)))) ∧
      (error_response m c (some errs)).content.getKey? "success" =
        some (Json.bool false) := by
  refine ⟨rfl, rfl, fun errs herrs => ?_⟩
  cases errs with
  | nil => exact absurd rfl herrs
  | cons p t =>
      constructor
      · show (Json.obj (_ ++ [("errors", _)])).getKey? "errors" = _
        simp [Json.getKey?, List.find?_append, List.find?]
      · rfl

/-- Claim C8, witness: `error_response` applied to the non-empty field-error
mapping `field ↦ bad` carries that mapping under the `errors` key. -/
theorem error_response_envelope_witness :
    ([("field", "bad")] : List (String × String)) ≠ [] ∧
    (error_response "Validation error" 422 (some [("field", "bad")])).content.getKey?
      "errors" = some (Json.obj [("field", Json.str "bad")]) :=
  ⟨by simp,
   ((error_response_envelope "Validation error" 422).2.2 [("field", "bad")] (by simp)).1⟩

/-- Claim C9: the global handler converts every unclassified exception into
exactly the fixed envelope — `success = false`, message "Internal server
error", status 500 in body and transport, and nothing else (no `errors` key,
no `data` key, no trace of the exception) — whatever the request and the
exception were. -/
theorem global_exception_handler_envelope (request exc : String) :
    global_exception_handler request exc =
      { status_code := 500,
        content := Json.obj [("success", Json.bool false),
          ("message", Json.str "Internal server error"),
          ("status_code", Json.int 500)] } ∧
    (global_exception_handler request exc).content.getKey? "errors" = none ∧
    (global_exception_handler request exc).content.getKey? "data" = none :=
  ⟨rfl, rfl, rfl⟩
